import Mathlib

/-!
Verification of the book-borrow agent (src/book-borrow-agent/book-borrow-agent.py).

The first part embeds the code that is present in the source file: the hard-coded
book catalog and the two tool handlers `get_book_list` and
`get_book_list_by_userid`, the `Context` dataclass, and the `ResponseFormat`
dataclass with its optional-field defaults.

The second part models, from the specification, the agent orchestration core
(message loop, context dispatch, structured-output validation with a bounded
repair limit): that core lives inside the `create_agent` library call and is not
part of the repository's own source, so it is reconstructed from the spec's
description of the state machine.
-/

/-- One catalog entry, mirroring the Python dict
`{title, author, publisher, publish_date, description, available}`. -/
structure Book where
  title : String
  author : String
  publisher : String
  publish_date : String
  description : String
  available : Bool
deriving Repr, DecidableEq

/-- First hard-coded book of `get_book_list`. -/
def book1 : Book :=
  { title := "心理学与生活"
    author := "理查德·格里格"
    publisher := "人民邮电出版社"
    publish_date := "2016-01-01"
    description := "本书介绍了心理学的基本概念和理论，帮助读者理解人类行为和心理过程。"
    available := true }

/-- Second hard-coded book of `get_book_list`. -/
def book2 : Book :=
  { title := "影响力"
    author := "罗伯特·西奥迪尼"
    publisher := "中国人民大学出版社"
    publish_date := "2010-01-01"
    description := "本书揭示了影响力的六大原则，帮助读者掌握说服他人的技巧。"
    available := true }

/-- Third hard-coded book of `get_book_list`; the only one with `available = False`. -/
def book3 : Book :=
  { title := "思考，快与慢"
    author := "丹尼尔·卡尼曼"
    publisher := "中信出版社"
    publish_date := "2012-01-01"
    description := "本书探讨了人类思维的两种模式，揭示了决策过程中的认知偏差。"
    available := false }

/-- Fourth hard-coded book of `get_book_list`. -/
def book4 : Book :=
  { title := "自控力"
    author := "凯利·麦格尼格尔"
    publisher := "机械工业出版社"
    publish_date := "2013-01-01"
    description := "本书提供了提升自控力的科学方法，帮助读者克服拖延和冲动。"
    available := true }

/-- Fifth hard-coded book of `get_book_list`. -/
def book5 : Book :=
  { title := "心流"
    author := "米哈里·契克森米哈赖"
    publisher := "浙江人民出版社"
    publish_date := "2017-01-01"
    description := "本书探讨了心流状态的特征和实现方法，帮助读者提升专注力和幸福感。"
    available := true }

/-- The local variable `books` inside `get_book_list`: the five hard-coded entries. -/
def catalogBooks : List Book := [book1, book2, book3, book4, book5]

/-- The returned dict `{"books": [...]}` of `get_book_list`, one field `books`. -/
structure BookListResult where
  books : List Book
deriving Repr, DecidableEq

/-- Tool `get_book_list`: returns `{"books": [book for book in books if book['available']]}`.
It takes no arguments and no runtime context. -/
def get_book_list : BookListResult :=
  { books := catalogBooks.filter (fun b => b.available) }

/-- The `Context` dataclass: custom runtime context schema with one field `user_id`. -/
structure Context where
  user_id : String
deriving Repr, DecidableEq

/-- The `ToolRuntime[Context]` value passed to a tool whose handler declares a
context dependency; the handler reads `runtime.context`. -/
structure ToolRuntime where
  context : Context
deriving Repr, DecidableEq

/-- The local dict `borrowed_books` inside `get_book_list_by_userid`. -/
def borrowed_books : List (String × List String) :=
  [("1", ["心理学与生活 - 理查德·格里格", "影响力 - 罗伯特·西奥迪尼"]),
   ("2", ["思考，快与慢 - 丹尼尔·卡尼曼"])]

/-- Tool `get_book_list_by_userid`: reads `user_id` from the runtime context and
returns `"\n".join(borrowed_books.get(user_id, ["该用户暂无借阅记录"]))`. -/
def get_book_list_by_userid (runtime : ToolRuntime) : String :=
  let user_id := runtime.context.user_id
  String.intercalate "\n" ((borrowed_books.lookup user_id).getD ["该用户暂无借阅记录"])

/-- `dict` values in the embedding: a JSON-style string-keyed mapping, as used
for the `book_info` field of `ResponseFormat`. -/
def JsonDict := List (String × String)
deriving Repr, DecidableEq

/-- The `ResponseFormat` dataclass: `encouragement_response: str` (no default,
required), `book_info: dict | None = None`, `reason: str | None = None`. -/
structure ResponseFormat where
  encouragement_response : String
  book_info : Option JsonDict := none
  reason : Option String := none
deriving Repr, DecidableEq

/-- Constructing a `ResponseFormat` the way Python permits with only the
positional `encouragement_response` argument: the two defaulted fields are left
at their declared defaults. -/
def ResponseFormat.ofEncouragement (e : String) : ResponseFormat :=
  { encouragement_response := e }

/-- Field types appearing in the declared response schema: text (`str`) or a
structured JSON value (`dict`). -/
inductive FieldType where
  | text
  | structured
deriving Repr, DecidableEq

/-- One declared field of a response schema: name, type, required marker. -/
structure SchemaField where
  name : String
  type : FieldType
  required : Bool
deriving Repr, DecidableEq

/-- The schema declared by the `ResponseFormat` dataclass, read off its three
field declarations in source order: a field with no default and a non-optional
annotation is required; a `| None = None` field is optional. -/
def responseFormatSchema : List SchemaField :=
  [{ name := "encouragement_response", type := .text, required := true },
   { name := "book_info", type := .structured, required := false },
   { name := "reason", type := .text, required := false }]

/-- The schema as the specification words it: `encouragement_response: required
text`, `book_info: optional structured value`, `reason: optional text`, and no
other field. Stated independently of `responseFormatSchema` to compare the two. -/
def specDeclaredSchema : List SchemaField :=
  [{ name := "encouragement_response", type := FieldType.text, required := true },
   { name := "book_info", type := FieldType.structured, required := false },
   { name := "reason", type := FieldType.text, required := false }]

/-- The two tools registered with the agent, in registration order. -/
inductive ToolName where
  | getBookList
  | getBookListByUserid
deriving Repr, DecidableEq

/-- Whether a tool's handler declares a context dependency: the
`get_book_list_by_userid` handler takes `runtime: ToolRuntime[Context]`, while
`get_book_list` takes no runtime argument. -/
def declaresContext : ToolName → Bool
  | .getBookList => false
  | .getBookListByUserid => true

/-- The result a tool handler produces: `get_book_list` returns a dict of books,
`get_book_list_by_userid` returns text. -/
inductive ToolResult where
  | books (r : BookListResult)
  | text (s : String)
deriving Repr, DecidableEq

/-- Modelled from the spec: the Context Binder dispatch (§4.2) of the agent core
inside `create_agent`, which is not part of the repository source. The caller's
`Context` is threaded to the handler that declares a context dependency, wrapped
in its `ToolRuntime`; the handler that declares none is invoked without it. -/
def dispatchTool (ctx : Context) : ToolName → ToolResult
  | .getBookList => .books get_book_list
  | .getBookListByUserid => .text (get_book_list_by_userid { context := ctx })

/-- Modelled from the spec: a `ToolInvocationRequest` `{id, tool_name, arguments}`;
neither registered tool takes arguments, so the mapping is omitted. -/
structure ToolInvocationRequest where
  id : String
  tool_name : ToolName
deriving Repr, DecidableEq

/-- Message roles of the data model. -/
inductive Role where
  | user
  | assistant
  | tool
deriving Repr, DecidableEq

/-- Modelled from the spec: the content slot of a `Message` — plain text, a
serialized tool output, or the model's final structured payload (serialization
is kept as an injective constructor rather than a string rendering). -/
inductive MessageContent where
  | text (s : String)
  | toolOutput (r : ToolResult)
  | payload (encouragement_response : Option String) (book_info : Option JsonDict)
      (reason : Option String)
deriving Repr, DecidableEq

/-- Modelled from the spec: a `Message`
`{role, content, tool_calls, tool_call_id}`. -/
structure Message where
  role : Role
  content : Option MessageContent := none
  tool_calls : List ToolInvocationRequest := []
  tool_call_id : Option String := none
deriving Repr, DecidableEq

/-- Modelled from the spec: the raw structured payload of a `FinalOutcome`,
before validation — every schema field may be absent. -/
structure Payload where
  encouragement_response : Option String
  book_info : Option JsonDict
  reason : Option String
deriving Repr, DecidableEq

/-- Whether a raw payload carries a value for the named schema field. -/
def Payload.hasField (p : Payload) : String → Bool
  | "encouragement_response" => p.encouragement_response.isSome
  | "book_info" => p.book_info.isSome
  | "reason" => p.reason.isSome
  | _ => false

/-- Modelled from the spec: the required-field check of the Structured Output
Validator (§4.5), driven by the declared schema. -/
def requiredFieldsPresent (p : Payload) : Bool :=
  responseFormatSchema.all (fun f => !f.required || p.hasField f.name)

/-- Modelled from the spec: `validate(raw_payload, schema) -> ParsedResponse |
SchemaViolation` (§4.5): every required field present and every present field
carried over into a `ResponseFormat`; `none` signals a schema violation. -/
def validate (p : Payload) : Option ResponseFormat :=
  if requiredFieldsPresent p then
    p.encouragement_response.map (fun e =>
      { encouragement_response := e, book_info := p.book_info, reason := p.reason })
  else none

/-- Modelled from the spec: a `ModelOutcome` of the Model Gateway (§4.4) —
either an ordered sequence of tool-call requests or a final payload. -/
inductive ModelOutcome where
  | toolCalls (reqs : List ToolInvocationRequest)
  | final (payload : Payload)
deriving Repr, DecidableEq

/-- Terminal turn statuses. -/
inductive Status where
  | done
  | failed
deriving Repr, DecidableEq

/-- Error kinds visible to the caller on a failed turn. -/
inductive ErrorKind where
  | SchemaViolation
  | ModelUnavailable
deriving Repr, DecidableEq

/-- Modelled from the spec: the caller-visible result of `invoke` (§6):
`{status, structured_response, error}`, plus the session's message sequence. -/
structure TurnResult where
  status : Status
  structured_response : Option ResponseFormat
  error : Option ErrorKind
  messages : List Message
deriving Repr, DecidableEq

/-- Modelled from the spec: the fixed, documented repair-attempt limit for
schema validation (§4.5, §8 scenario: two schema-invalid payloads in a row
exceed the limit); it counts payload-validation attempts within one turn. -/
def repairAttemptLimit : Nat := 2

/-- The assistant message recording a tool-call outcome. -/
def assistantToolCallMessage (reqs : List ToolInvocationRequest) : Message :=
  { role := .assistant, tool_calls := reqs }

/-- The `tool` messages appended for a dispatched tool-call list, in request
order, each carrying the `tool_call_id` of the request it answers. -/
def toolMessages (ctx : Context) (reqs : List ToolInvocationRequest) : List Message :=
  reqs.map (fun r =>
    { role := .tool, content := some (.toolOutput (dispatchTool ctx r.tool_name)),
      tool_call_id := some r.id })

/-- The assistant message recording a final payload. -/
def finalMessage (p : Payload) : Message :=
  { role := .assistant,
    content := some (.payload p.encouragement_response p.book_info p.reason) }

/-- Modelled from the spec: the orchestration state machine of the Agent Core
(§4.6), with the Model Gateway abstracted as a deterministic stream of outcomes
indexed by call number. `fuel` bounds the number of gateway calls (exhaustion is
`ModelUnavailable`); `i` is the next gateway call index; `attempts` counts
payload-validation attempts performed so far. -/
def runLoop (g : Nat → ModelOutcome) (ctx : Context) :
    Nat → Nat → Nat → List Message → TurnResult
  | 0, _, _, msgs =>
    { status := .failed, structured_response := none,
      error := some .ModelUnavailable, messages := msgs }
  | fuel + 1, i, attempts, msgs =>
    match g i with
    | .toolCalls reqs =>
      runLoop g ctx fuel (i + 1) attempts
        (msgs ++ assistantToolCallMessage reqs :: toolMessages ctx reqs)
    | .final p =>
      match validate p with
      | some r =>
        { status := .done, structured_response := some r, error := none,
          messages := msgs ++ [finalMessage p] }
      | none =>
        if attempts + 1 < repairAttemptLimit then
          runLoop g ctx fuel (i + 1) (attempts + 1) (msgs ++ [finalMessage p])
        else
          { status := .failed, structured_response := none,
            error := some .SchemaViolation, messages := msgs ++ [finalMessage p] }

/-- Modelled from the spec: one full turn (`LOADING` appends the user message,
then the model/tool loop runs to a terminal state). -/
def runTurn (g : Nat → ModelOutcome) (ctx : Context) (userInput : String)
    (fuel : Nat) : TurnResult :=
  runLoop g ctx fuel 0 0 [{ role := .user, content := some (.text userInput) }]

/-- A schema-valid final payload used by deterministic gateway stubs. -/
def validPayload : Payload :=
  { encouragement_response := some "继续加油！阅读让你更进一步。",
    book_info := some [("title", "心流"), ("author", "米哈里·契克森米哈赖")],
    reason := some "这本书尚未被借阅，且与专注力提升相关。" }

/-- A deterministic gateway stub: one tool call to the availability-lookup tool
(`get_book_list`, which declares no context dependency), then a schema-valid
final payload. -/
def stubGateway : Nat → ModelOutcome
  | 0 => .toolCalls [{ id := "call_1", tool_name := .getBookList }]
  | _ => .final validPayload

/-- A payload missing the required `encouragement_response` field. -/
def missingFieldPayload : Payload :=
  { encouragement_response := none, book_info := none, reason := none }

/-- A deterministic gateway stub whose every outcome is a final payload missing
the required `encouragement_response` field. -/
def failingGateway : Nat → ModelOutcome :=
  fun _ => .final missingFieldPayload

/-- Claim C1: every invocation of `get_book_list` returns exactly the catalog
entries whose `available` flag is true — 4 of the 5 hard-coded books, with the
one unavailable entry (《思考，快与慢》) filtered out and every kept entry
unchanged. -/
theorem get_book_list_returns_available_books :
    get_book_list.books = [book1, book2, book4, book5] ∧
    catalogBooks.length = 5 ∧
    get_book_list.books.length = 4 ∧
    book3.available = false ∧
    book3.title = "思考，快与慢" ∧
    (∀ b ∈ catalogBooks, b.available = true → b ∈ get_book_list.books) ∧
    (∀ b ∈ get_book_list.books, b ∈ catalogBooks ∧ b.available = true) := by
  refine ⟨rfl, rfl, rfl, rfl, rfl, ?_, ?_⟩ <;> decide

/-- Claim C2: for the caller context with `user_id = "1"`,
`get_book_list_by_userid` returns exactly the two titles
"心理学与生活 - 理查德·格里格" and "影响力 - 罗伯特·西奥迪尼", joined by a
newline, in that order. -/
theorem get_book_list_by_userid_user1 :
    borrowed_books.lookup "1" =
      some ["心理学与生活 - 理查德·格里格", "影响力 - 罗伯特·西奥迪尼"] ∧
    get_book_list_by_userid { context := { user_id := "1" } } =
      "心理学与生活 - 理查德·格里格\n影响力 - 罗伯特·西奥迪尼" :=
  ⟨rfl, rfl⟩

/-- Claim C4: the declared response schema has exactly three fields —
`encouragement_response` required text, `book_info` optional structured value,
`reason` optional text — and the schema read off the `ResponseFormat` dataclass
coincides with the schema as the spec words it. -/
theorem responseFormatSchema_as_declared :
    responseFormatSchema = specDeclaredSchema ∧
    responseFormatSchema.length = 3 ∧
    responseFormatSchema.map (fun f => f.name) =
      ["encouragement_response", "book_info", "reason"] :=
  ⟨rfl, rfl, rfl⟩

/-- Claim C7: both registered tool handlers are deterministic — two invocations
of the same tool with identical (empty) arguments and identical context yield
identical results, both through the dispatch and for the raw
`get_book_list_by_userid` handler. -/
theorem tool_handlers_deterministic (c c' : Context) (rt rt' : ToolRuntime)
    (t : ToolName) (hc : c = c') (hrt : rt = rt') :
    dispatchTool c t = dispatchTool c' t ∧
    get_book_list_by_userid rt = get_book_list_by_userid rt' := by
  subst hc; subst hrt; exact ⟨rfl, rfl⟩

/-- Witness for C7 at the concrete context `user_id = "1"` and both tools. -/
theorem tool_handlers_deterministic_witness :
    dispatchTool { user_id := "1" } ToolName.getBookListByUserid =
      dispatchTool { user_id := "1" } ToolName.getBookListByUserid ∧
    get_book_list_by_userid { context := { user_id := "1" } } =
      get_book_list_by_userid { context := { user_id := "1" } } :=
  tool_handlers_deterministic { user_id := "1" } { user_id := "1" }
    { context := { user_id := "1" } } { context := { user_id := "1" } }
    ToolName.getBookListByUserid rfl rfl

/-- Claim C9: `get_book_list_by_userid` is total over user ids — for every
`user_id` other than "1" and "2" it returns the single fallback line
"该用户暂无借阅记录". -/
theorem get_book_list_by_userid_total (uid : String) (h1 : uid ≠ "1")
    (h2 : uid ≠ "2") :
    get_book_list_by_userid { context := { user_id := uid } } =
      "该用户暂无借阅记录" := by
  have b1 : (uid == "1") = false := beq_eq_false_iff_ne.mpr h1
  have b2 : (uid == "2") = false := beq_eq_false_iff_ne.mpr h2
  simp [get_book_list_by_userid, borrowed_books, List.lookup, b1, b2]
  rfl

/-- Witness for C9 at the concrete user id "3". -/
theorem get_book_list_by_userid_total_witness :
    ("3" : String) ≠ "1" ∧ ("3" : String) ≠ "2" ∧
    get_book_list_by_userid { context := { user_id := "3" } } =
      "该用户暂无借阅记录" :=
  ⟨by decide, by decide, get_book_list_by_userid_total "3" (by decide) (by decide)⟩

/-- Claim C10: a `ResponseFormat` can be built from `encouragement_response`
alone; the optional fields `book_info` and `reason` then default to `none`,
while `encouragement_response` is always the supplied non-optional string. -/
theorem responseFormat_optional_defaults (e : String) :
    (ResponseFormat.ofEncouragement e).encouragement_response = e ∧
    (ResponseFormat.ofEncouragement e).book_info = none ∧
    (ResponseFormat.ofEncouragement e).reason = none :=
  ⟨rfl, rfl, rfl⟩

/-- A payload the validator accepts has passed the required-field check. -/
theorem validate_some_required {p : Payload} {r : ResponseFormat}
    (h : validate p = some r) : requiredFieldsPresent p = true := by
  by_cases hp : requiredFieldsPresent p = true
  · exact hp
  · simp [validate, hp] at h

/-- A payload missing `encouragement_response` is rejected by the validator. -/
theorem validate_none_of_missing {p : Payload}
    (h : p.encouragement_response = none) : validate p = none := by
  simp [validate, requiredFieldsPresent, responseFormatSchema, Payload.hasField, h]

/-- Loop invariant behind C3: a `done` result carries a validator-accepted
response and a `failed` result carries none. -/
theorem runLoop_done_valid (g : Nat → ModelOutcome) (c : Context) :
    ∀ (fuel i attempts : Nat) (msgs : List Message),
      ((runLoop g c fuel i attempts msgs).status = Status.done →
        ∃ p r, validate p = some r ∧ requiredFieldsPresent p = true ∧
          (runLoop g c fuel i attempts msgs).structured_response = some r) ∧
      ((runLoop g c fuel i attempts msgs).status = Status.failed →
        (runLoop g c fuel i attempts msgs).structured_response = none) := by
  intro fuel
  induction fuel with
  | zero =>
    intro i attempts msgs
    constructor
    · intro h; simp [runLoop] at h
    · intro _; rfl
  | succ n ih =>
    intro i attempts msgs
    cases hgi : g i with
    | toolCalls reqs =>
      have := ih (i + 1) attempts
        (msgs ++ assistantToolCallMessage reqs :: toolMessages c reqs)
      simpa [runLoop, hgi] using this
    | final p =>
      cases hv : validate p with
      | some r =>
        constructor
        · intro _
          exact ⟨p, r, hv, validate_some_required hv, by simp [runLoop, hgi, hv]⟩
        · intro h; simp [runLoop, hgi, hv] at h
      | none =>
        by_cases hlt : attempts + 1 < repairAttemptLimit
        · have := ih (i + 1) (attempts + 1) (msgs ++ [finalMessage p])
          simpa [runLoop, hgi, hv, hlt] using this
        · constructor
          · intro h; simp [runLoop, hgi, hv, hlt] at h
          · intro _; simp [runLoop, hgi, hv, hlt]

/-- Claim C3: for every turn that terminates with status `done`, the
`structured_response` returned to the caller is an output of the Structured
Output Validator (required field present, every present field carried over with
its declared type); a turn never yields a partial or invalid response — on
`failed` the response is absent. -/
theorem turn_done_structured_response_valid (g : Nat → ModelOutcome)
    (c : Context) (u : String) (fuel : Nat) :
    ((runTurn g c u fuel).status = Status.done →
      ∃ p r, validate p = some r ∧ requiredFieldsPresent p = true ∧
        (runTurn g c u fuel).structured_response = some r) ∧
    ((runTurn g c u fuel).status = Status.failed →
      (runTurn g c u fuel).structured_response = none) :=
  runLoop_done_valid g c fuel 0 0 _

/-- Witness for C3: a concrete turn through `stubGateway` reaches `done` with a
validator-accepted structured response. -/
theorem turn_done_structured_response_valid_witness :
    ∃ p r, validate p = some r ∧ requiredFieldsPresent p = true ∧
      (runTurn stubGateway { user_id := "1" } "查询可借阅的书籍" 3).structured_response =
        some r :=
  (turn_done_structured_response_valid stubGateway { user_id := "1" }
    "查询可借阅的书籍" 3).1 (by decide)

/-- A tool that declares no context dependency is dispatched identically under
any two contexts. -/
theorem dispatchTool_no_context_dep (c c' : Context) (t : ToolName)
    (ht : t ≠ ToolName.getBookListByUserid) :
    dispatchTool c t = dispatchTool c' t := by
  cases t with
  | getBookList => rfl
  | getBookListByUserid => exact absurd rfl ht

/-- Tool messages for a request list that never names the context-dependent
tool are independent of the context. -/
theorem toolMessages_context_irrel (c c' : Context) :
    ∀ (reqs : List ToolInvocationRequest),
      (∀ r ∈ reqs, r.tool_name ≠ ToolName.getBookListByUserid) →
      toolMessages c reqs = toolMessages c' reqs := by
  intro reqs
  induction reqs with
  | nil => intro _; rfl
  | cons a as ih =>
    intro h
    have ha := h a (List.mem_cons_self a as)
    have has := ih (fun r hr => h r (List.mem_cons_of_mem a hr))
    simp only [toolMessages, List.map_cons] at has ⊢
    rw [dispatchTool_no_context_dep c c' a.tool_name ha]
    exact congrArg _ has

/-- If the gateway never requests the context-dependent tool, the whole loop
result is independent of the context. -/
theorem runLoop_context_local (g : Nat → ModelOutcome) (c c' : Context)
    (hg : ∀ i reqs, g i = ModelOutcome.toolCalls reqs →
      ∀ r ∈ reqs, r.tool_name ≠ ToolName.getBookListByUserid) :
    ∀ (fuel i attempts : Nat) (msgs : List Message),
      runLoop g c fuel i attempts msgs = runLoop g c' fuel i attempts msgs := by
  intro fuel
  induction fuel with
  | zero => intro i attempts msgs; rfl
  | succ n ih =>
    intro i attempts msgs
    cases hgi : g i with
    | toolCalls reqs =>
      have hmsg := toolMessages_context_irrel c c' reqs (hg i reqs hgi)
      simp only [runLoop, hgi, hmsg]
      exact ih (i + 1) attempts _
    | final p =>
      cases hv : validate p with
      | some r => simp [runLoop, hgi, hv]
      | none =>
        by_cases hlt : attempts + 1 < repairAttemptLimit
        · simp only [runLoop, hgi, hv, if_pos hlt]
          exact ih (i + 1) (attempts + 1) _
        · simp [runLoop, hgi, hv, hlt]

/-- Claim C5: the caller's `Context` is delivered unchanged to every invocation
of the tool whose handler declares a context dependency
(`get_book_list_by_userid`), the tool whose handler declares none
(`get_book_list`) is invoked without it (its dispatch is context-independent),
and the context is never inserted into the Message sequence: a turn whose
gateway never requests the context-dependent tool yields a message history
independent of the context. -/
theorem context_binder_contract (c c' : Context) (g : Nat → ModelOutcome)
    (u : String) (fuel : Nat)
    (hg : ∀ i reqs, g i = ModelOutcome.toolCalls reqs →
      ∀ r ∈ reqs, r.tool_name ≠ ToolName.getBookListByUserid) :
    dispatchTool c ToolName.getBookListByUserid =
      ToolResult.text (get_book_list_by_userid { context := c }) ∧
    declaresContext ToolName.getBookListByUserid = true ∧
    declaresContext ToolName.getBookList = false ∧
    dispatchTool c ToolName.getBookList = dispatchTool c' ToolName.getBookList ∧
    (runTurn g c u fuel).messages = (runTurn g c' u fuel).messages := by
  refine ⟨rfl, rfl, rfl, rfl, ?_⟩
  unfold runTurn
  rw [runLoop_context_local g c c' hg fuel 0 0 _]

/-- Witness for C5: `stubGateway` only requests `get_book_list`, and two turns
under different contexts produce identical message histories. -/
theorem context_binder_contract_witness :
    (runTurn stubGateway { user_id := "1" } "查询可借书籍" 3).messages =
      (runTurn stubGateway { user_id := "2" } "查询可借书籍" 3).messages ∧
    dispatchTool { user_id := "1" } ToolName.getBookListByUserid =
      ToolResult.text (get_book_list_by_userid { context := { user_id := "1" } }) := by
  have hg : ∀ i reqs, stubGateway i = ModelOutcome.toolCalls reqs →
      ∀ r ∈ reqs, r.tool_name ≠ ToolName.getBookListByUserid := by
    intro i reqs h r hr
    cases i with
    | zero =>
      injection h with h2
      subst h2
      simp only [List.mem_singleton] at hr
      subst hr
      decide
    | succ n => simp [stubGateway] at h
  have h := context_binder_contract { user_id := "1" } { user_id := "2" }
    stubGateway "查询可借书籍" 3 hg
  exact ⟨h.2.2.2.2, h.1⟩

/-- Claim C6: structured-output repair is bounded by the fixed constant
`repairAttemptLimit = 2`: a gateway whose final payloads always miss the
required `encouragement_response` field drives the turn to `failed` with error
`SchemaViolation` instead of retrying unboundedly. -/
theorem schema_violation_after_bounded_repair (g : Nat → ModelOutcome)
    (c : Context) (u : String) (fuel : Nat)
    (hg : ∀ i, ∃ p, g i = ModelOutcome.final p ∧ p.encouragement_response = none)
    (hfuel : 2 ≤ fuel) :
    repairAttemptLimit = 2 ∧
    (runTurn g c u fuel).status = Status.failed ∧
    (runTurn g c u fuel).error = some ErrorKind.SchemaViolation ∧
    (runTurn g c u fuel).structured_response = none := by
  obtain ⟨p0, hg0, hm0⟩ := hg 0
  obtain ⟨p1, hg1, hm1⟩ := hg 1
  have hv0 := validate_none_of_missing hm0
  have hv1 := validate_none_of_missing hm1
  obtain ⟨n, rfl⟩ : ∃ n, fuel = n + 2 := ⟨fuel - 2, by omega⟩
  refine ⟨rfl, ?_, ?_, ?_⟩ <;>
    simp [runTurn, runLoop, hg0, hg1, hv0, hv1, repairAttemptLimit]

/-- Witness for C6: the always-invalid `failingGateway` ends a fuel-2 turn
`failed` with `SchemaViolation`. -/
theorem schema_violation_after_bounded_repair_witness :
    repairAttemptLimit = 2 ∧
    (runTurn failingGateway { user_id := "1" } "你好" 2).status = Status.failed ∧
    (runTurn failingGateway { user_id := "1" } "你好" 2).error =
      some ErrorKind.SchemaViolation ∧
    (runTurn failingGateway { user_id := "1" } "你好" 2).structured_response =
      none :=
  schema_violation_after_bounded_repair failingGateway { user_id := "1" } "你好" 2
    (fun _ => ⟨missingFieldPayload, rfl, rfl⟩) (by decide)
